import Mathlib

/-
Verification of the myco-planner utility scripts.

The repository consists of small sequential Python scripts:
  - scraper.py: cookie-authenticated page fetch (config.json credential store,
    login-redirect detection, credential purge on auth failure);
  - scraper_selenium.py: browser-automation variant sharing load_config/save_config
    and parse_and_display;
  - fetch_calendar.py: calendar-feed URL loading, ICS fetch/parse with a debug
    dump on parse failure, and event display sorted by start time.

This file gives a shallow embedding of the data model and the operations those
scripts perform, and proves the specified properties about them.

Modelling conventions:
  - Python strings are `List Char` (`Str`); string primitives used by the code
    (lower-casing, substring test, strip, startswith) are given as executable
    structural recursions so concrete inputs evaluate by `decide`.
  - The config.json credential store is an association list from keys to string
    values; `json.load` outcomes are modelled by `ConfigFileState` (the file is
    absent, or present with a parse outcome - `none` for a JSONDecodeError).
  - External-library parses (ics `Calendar(...)`, BeautifulSoup) are delegated
    collaborators: their outcome is passed to the embedded function as a
    parameter (e.g. `Option (List CalEvent)` for the ICS parse, a list of
    activity entries with optional instance names for the HTML parse).
  - `sys.exit(1)` branches are represented by explicit result constructors or
    `Option Nat` exit codes; console output relevant to the claims is modelled
    as a list of message strings (leading lines of each printed block).
  - Python datetimes are modelled as `Nat`, with `datetimeMin` standing for
    `datetime.min`, the minimum representable time.
-/

namespace MycoPlanner

/-- Python strings, modelled as lists of characters so that all string
operations compute by structural recursion. -/
abbrev Str := List Char

/-- Model of Python `str.lower()` (the code applies it to URLs, which are
ASCII, so per-character lower-casing is exact). -/
def toLowerS (s : Str) : Str := s.map Char.toLower

/-- Model of Python `str.startswith(pat)`. -/
def isPrefixOfS : Str → Str → Bool
  | [], _ => true
  | _ :: _, [] => false
  | a :: as, b :: bs => a == b && isPrefixOfS as bs

/-- Model of the Python substring test `pat in s`. -/
def containsSub (pat : Str) : Str → Bool
  | [] => isPrefixOfS pat []
  | c :: rest => isPrefixOfS pat (c :: rest) || containsSub pat rest

/-- Whitespace characters stripped by Python `str.strip()`. -/
def isSpace (c : Char) : Bool := c == ' ' || c == '\t' || c == '\n' || c == '\r'

/-- Model of Python `str.strip()`: drop whitespace from both ends. -/
def trimS (s : Str) : Str := ((s.dropWhile isSpace).reverse.dropWhile isSpace).reverse

/-- The config.json mapping (a JSON object of string keys and string values),
modelled as an association list. -/
abbrev Config := List (Str × Str)

/-- Model of Python dict lookup `config[key]` / `key in config` (as an Option). -/
def lookupKey : Config → Str → Option Str
  | [], _ => none
  | (k, v) :: rest, key => if k = key then some v else lookupKey rest key

/-- Model of Python `key in config`. -/
def containsKey (c : Config) (key : Str) : Bool := (lookupKey c key).isSome

/-- Model of Python `del config[key]`. -/
def eraseKey : Config → Str → Config
  | [], _ => []
  | (k, v) :: rest, key => if k = key then eraseKey rest key else (k, v) :: eraseKey rest key

/-- Model of Python `config[key] = val` (replace if present, else append). -/
def setKey : Config → Str → Str → Config
  | [], key, val => [(key, val)]
  | (k, v) :: rest, key, val =>
      if k = key then (key, val) :: rest else (k, v) :: setKey rest key val

/-- The fixed credential key `"MoodleSession"` (scraper.py). -/
def moodleSessionKey : Str := "MoodleSession".data

/-- State of the config.json file: absent, or present with the outcome of
`json.load` on its bytes (`none` models a JSONDecodeError). -/
inductive ConfigFileState
  | absent
  | present (parsed : Option Config)
deriving DecidableEq

/-- scraper.py lines 17-26 (and the equivalent scraper_selenium.py lines 21-27):
return the parsed mapping; an absent file or a JSONDecodeError yields the empty
mapping (scraper_selenium.py catches FileNotFoundError for the absent case;
both scripts behave identically on these states). -/
def load_config : ConfigFileState → Config
  | ConfigFileState.absent => []
  | ConfigFileState.present none => []
  | ConfigFileState.present (some c) => c

/-- scraper.py lines 29-33: `json.dump(config, f)` rewrites the whole file with
the given mapping, which then parses back to itself. -/
def save_config (c : Config) : ConfigFileState := ConfigFileState.present (some c)

/-- scraper.py line 41: the test `"MoodleSession" in config and
config["MoodleSession"]` - the stored cookie, provided it is present and
truthy (non-empty). -/
def storedCookie (config : Config) : Option Str :=
  match lookupKey config moodleSessionKey with
  | some v => if v = [] then none else some v
  | none => none

/-- Outcome of `get_cookie` (scraper.py lines 36-66): the cookie came from the
store, or from the interactive prompt (and was saved), or the process exited
with the given code because the prompted value was empty. -/
inductive CookieResult
  | fromStore (v : Str)
  | fromPrompt (v : Str)
  | exitEmpty (code : Nat)
deriving DecidableEq

/-- Result state of `get_cookie`: the returned value / exit, the config.json
file afterwards, and whether the interactive prompt was shown. -/
structure CookieOut where
  result : CookieResult
  file : ConfigFileState
  prompted : Bool
deriving DecidableEq

/-- scraper.py lines 36-66. `promptInput` is the reply the operator gives to
`input(...)`, consulted only when the prompt is reached. The prompt branch
strips the reply; an empty result exits 1 before any write, otherwise the
value is stored under `"MoodleSession"` and saved. -/
def get_cookie (file : ConfigFileState) (promptInput : Str) : CookieOut :=
  let config := load_config file
  match storedCookie config with
  | some v => ⟨CookieResult.fromStore v, file, false⟩
  | none =>
      let cookie_value := trimS promptInput
      if cookie_value = [] then ⟨CookieResult.exitEmpty 1, file, true⟩
      else ⟨CookieResult.fromPrompt cookie_value,
            save_config (setKey config moodleSessionKey cookie_value), true⟩

/-- An HTTP response as seen by `requests.get` after redirects: final status,
final URL (`response.url`), body (`response.text`). -/
structure FetchResponse where
  status : Nat
  finalUrl : Str
  body : Str
deriving DecidableEq

/-- Which branch of `scrape_page` ran: success returning the body; the
login-redirect branch (prints the session-expired error, purges the stored
cookie, `sys.exit(code)`); or the generic `except RequestException` handler
(prints the fetch error, `sys.exit(code)`). -/
inductive ScrapeResult
  | success (body : Str)
  | authFailureExit (code : Nat)
  | requestErrorExit (code : Nat)
deriving DecidableEq

/-- Result of `scrape_page`: the branch taken, the config.json file state
afterwards, and the error messages printed (leading line of each printed
block). -/
structure ScrapeOut where
  result : ScrapeResult
  file : ConfigFileState
  msgs : List Str
deriving DecidableEq

/-- scraper.py line 86 (first line of the login-redirect error print). -/
def sessionExpiredMsg : Str :=
  "Error: Session expired or invalid cookie. You were redirected to login.".data

/-- scraper.py line 88. -/
def freshCookieMsg : Str := "Please obtain a fresh cookie and try again.".data

/-- scraper.py line 33 (printed by save_config). -/
def configSavedMsg : Str := "Configuration saved to config.json".data

/-- scraper.py line 95. -/
def removedCookieMsg : Str := "Removed invalid cookie from config.json".data

/-- scraper.py line 102 (prefix of the printed text; the exception text that
the f-string appends is elided). -/
def fetchErrorMsg : Str := "Error fetching page".data

/-- The login-page marker searched for in the final URL. -/
def loginMarker : Str := "login".data

/-- scraper.py line 84: `"login" in response.url.lower()`. -/
def containsLogin (url : Str) : Bool := containsSub loginMarker (toLowerS url)

/-- scraper.py lines 90-95: reload the config, delete `"MoodleSession"` if
present and save; if the key is absent nothing is written. Returns the
config.json file state afterwards. -/
def purge_and_save (file : ConfigFileState) : ConfigFileState :=
  let config := load_config file
  if containsKey config moodleSessionKey then save_config (eraseKey config moodleSessionKey)
  else file

/-- scraper.py lines 69-103. The input is the outcome of `requests.get`:
`none` models a transport-level RequestException (timeout, connection error),
`some resp` a completed response. `raise_for_status()` raises HTTPError
exactly for statuses in 400-599, and that exception is caught by the same
generic `except RequestException` handler; only then is the final URL checked
for the login marker. -/
def scrape_page (fetched : Option FetchResponse) (file : ConfigFileState) : ScrapeOut :=
  match fetched with
  | none => ⟨ScrapeResult.requestErrorExit 1, file, [fetchErrorMsg]⟩
  | some resp =>
      if 400 ≤ resp.status ∧ resp.status < 600 then
        ⟨ScrapeResult.requestErrorExit 1, file, [fetchErrorMsg]⟩
      else if containsLogin resp.finalUrl then
        let purged := containsKey (load_config file) moodleSessionKey
        ⟨ScrapeResult.authFailureExit 1, purge_and_save file,
          [sessionExpiredMsg, freshCookieMsg] ++
            (if purged then [configSavedMsg, removedCookieMsg] else [])⟩
      else ⟨ScrapeResult.success resp.body, file, []⟩

/-- A calendar event as used by display_events (fetch_calendar.py): optional
start time (`e.begin`, modelled as `Option Nat`) and a name. Other fields do
not influence the presentation order. -/
structure CalEvent where
  start : Option Nat
  name : Str
deriving DecidableEq

/-- Model of Python `datetime.min`, the minimum representable time. -/
def datetimeMin : Nat := 0

/-- fetch_calendar.py line 113: the sort key `e.begin if e.begin else
datetime.min`. -/
def sortKey (e : CalEvent) : Nat := e.start.getD datetimeMin

/-- Comparison by sort key; `sorted` orders ascending by key. -/
def evLe (a b : CalEvent) : Prop := sortKey a ≤ sortKey b

instance decEvLe : DecidableRel evLe := fun a b => Nat.decLe (sortKey a) (sortKey b)

instance totalEvLe : IsTotal CalEvent evLe := ⟨fun a b => Nat.le_total (sortKey a) (sortKey b)⟩

instance transEvLe : IsTrans CalEvent evLe := ⟨fun _ _ _ => Nat.le_trans⟩

/-- fetch_calendar.py line 113: `sorted(events, key=...)`. The Python `sorted`
builtin is a stable sort; the output of a stable sort is uniquely determined
by the key order, so the (stable) insertion sort computes the same list. -/
def displayOrder (events : List CalEvent) : List CalEvent :=
  List.insertionSort evLe events

/-- Result of `parse_calendar_events`: the returned calendar (`none` on parse
failure) and the content of debug_calendar.ics afterwards. -/
structure ParseOut where
  calendar : Option (List CalEvent)
  debugFile : Option Str
deriving DecidableEq

/-- fetch_calendar.py lines 77-90. `parsed` is the outcome of the external
ics-library call `Calendar(ics_data)` (`none` models a raised exception);
`debug0` is the prior content of debug_calendar.ics. On failure the raw
payload is written there unchanged and `None` is returned. -/
def parse_calendar_events (parsed : Option (List CalEvent)) (ics_data : Str)
    (debug0 : Option Str) : ParseOut :=
  match parsed with
  | some cal => ⟨some cal, debug0⟩
  | none => ⟨none, some ics_data⟩

/-- fetch_calendar.py lines 164-166: `if not calendar: sys.exit(1)` - the exit
code produced by main after the parse step (`none` means main continues). -/
def main_exit_after_parse (calendar : Option (List CalEvent)) : Option Nat :=
  if calendar.isNone then some 1 else none

/-- scraper.py lines 144-147 (same in scraper_selenium.py lines 184-187): the
activity names printed - the first 10 activity entries, keeping those that
have an `instancename` span. Each activity entry is modelled by its optional
instance name. -/
def enumerated_activities (acts : List (Option Str)) : List Str :=
  (acts.take 10).filterMap id

/-- scraper.py lines 148-149: the omitted-count line `... and N more` is
printed exactly when there are more than 10 entries, with N the number of
entries beyond the first 10. -/
def omitted_count (acts : List (Option Str)) : Option Nat :=
  if 10 < acts.length then some (acts.length - 10) else none

/-- State of the calendar_feed_url.txt file: absent, or present with the given
text content. -/
inductive UrlFileState
  | absent
  | present (content : Str)
deriving DecidableEq

/-- fetch_calendar.py line 23 (first line of the missing-file block). -/
def urlFileMissingMsg : Str := "Error: calendar_feed_url.txt not found".data

/-- fetch_calendar.py line 24 (the remediation block that follows; the
individual numbered steps are elided). -/
def urlFileRemediationMsg : Str := "To create this file:".data

/-- fetch_calendar.py line 37. -/
def urlFileEmptyMsg : Str := "Error: calendar_feed_url.txt is empty".data

/-- fetch_calendar.py line 40 (prefix; the f-string appends the URL). -/
def urlInvalidFormatMsg (url : Str) : Str := "Error: Invalid URL format: ".data ++ url

/-- fetch_calendar.py line 41. -/
def urlSchemeHintMsg : Str := "URL should start with http:// or https://".data

/-- The `http://` scheme accepted by the startswith check. -/
def httpScheme : Str := "http://".data

/-- The `https://` scheme accepted by the startswith check. -/
def httpsScheme : Str := "https://".data

/-- fetch_calendar.py lines 18-46: strip the file content; an absent file,
empty content, or a non-HTTP(S) scheme yields `none` with the corresponding
error/remediation lines printed; otherwise the stripped URL is returned.
(The catch-all `except` for OS-level read errors also yields `none`; such
failures are outside this file-content model.) -/
def load_calendar_url : UrlFileState → Option Str × List Str
  | UrlFileState.absent => (none, [urlFileMissingMsg, urlFileRemediationMsg])
  | UrlFileState.present content =>
      let url := trimS content
      if url = [] then (none, [urlFileEmptyMsg])
      else if !(isPrefixOfS httpScheme url || isPrefixOfS httpsScheme url) then
        (none, [urlInvalidFormatMsg url, urlSchemeHintMsg])
      else (some url, [])

/-- fetch_calendar.py lines 154-156: `if not url: sys.exit(1)` - the exit code
produced by main after loading the URL (`None` and the empty string are falsy;
`none` result means main continues). -/
def main_exit_after_url : Option Str → Option Nat
  | none => some 1
  | some s => if s = [] then some 1 else none

/- Concrete inputs used by counterexamples and witnesses. -/

/-- A sample stored session token. -/
def storedTokenVal : Str := "abc123".data

/-- A config mapping holding only the session token. -/
def configWithToken : Config := [(moodleSessionKey, storedTokenVal)]

/-- A config.json file holding the sample token. -/
def fileWithToken : ConfigFileState := ConfigFileState.present (some configWithToken)

/-- A final URL containing the login-page marker. -/
def loginUrl : Str := "https://mycourses.aalto.fi/login/index.php".data

/-- A final URL not containing the login-page marker. -/
def courseUrl : Str := "https://mycourses.aalto.fi/course/view.php?id=47384".data

/-- A response whose final URL contains the login marker but whose status is
401, so `raise_for_status()` raises before the login check runs. -/
def respLogin401 : FetchResponse := ⟨401, loginUrl, []⟩

/-- A 200 response redirected to a login URL. -/
def respLogin200 : FetchResponse := ⟨200, loginUrl, []⟩

/-- A 401 response on a non-login URL. -/
def resp401NoLogin : FetchResponse := ⟨401, courseUrl, []⟩

/-- A second configuration key unrelated to the credential. -/
def otherKey : Str := "theme".data

/-- A config mapping holding the session token and an unrelated key. -/
def configTwoKeys : Config := [(moodleSessionKey, storedTokenVal), (otherKey, "dark".data)]

/-- The event starting 2024-11-20T09:00 (encoded YYYYMMDDHHMM). -/
def evNov20 : CalEvent := ⟨some 202411200900, "Lecture".data⟩

/-- The event starting 2024-11-18T10:00 (encoded YYYYMMDDHHMM). -/
def evNov18 : CalEvent := ⟨some 202411181000, "Exercise".data⟩

/-- The event with no start time. -/
def evNoStart : CalEvent := ⟨none, "Deadline".data⟩

/-- The event list of the specification example, in fetch order. -/
def exampleEvents : List CalEvent := [evNov20, evNov18, evNoStart]

/-- Twelve activity entries, all carrying an instance name. -/
def acts12 : List (Option Str) :=
  [some ("Act 01".data), some ("Act 02".data), some ("Act 03".data),
   some ("Act 04".data), some ("Act 05".data), some ("Act 06".data),
   some ("Act 07".data), some ("Act 08".data), some ("Act 09".data),
   some ("Act 10".data), some ("Act 11".data), some ("Act 12".data)]

/-- A calendar-feed URL file content with surrounding whitespace. -/
def goodUrlContent : Str := "  https://example.com/feed.ics  ".data

/- Helper lemmas about the credential-store operations. -/

theorem lookupKey_eraseKey_self (c : Config) (key : Str) :
    lookupKey (eraseKey c key) key = none := by
  induction c with
  | nil => rfl
  | cons p rest ih =>
      obtain ⟨k, v⟩ := p
      by_cases h : k = key
      · simpa [eraseKey, h] using ih
      · simp [eraseKey, h, lookupKey, ih]

theorem lookupKey_eraseKey_ne (c : Config) {k key : Str} (h : k ≠ key) :
    lookupKey (eraseKey c key) k = lookupKey c k := by
  have h' : key ≠ k := fun hh => h hh.symm
  induction c with
  | nil => rfl
  | cons p rest ih =>
      obtain ⟨k', v⟩ := p
      by_cases hk : k' = key
      · subst hk
        have e1 : eraseKey ((k', v) :: rest) k' = eraseKey rest k' := by
          simp [eraseKey]
        have e2 : lookupKey ((k', v) :: rest) k = lookupKey rest k := by
          simp [lookupKey, h']
        rw [e1, e2, ih]
      · have e1 : eraseKey ((k', v) :: rest) key = (k', v) :: eraseKey rest key := by
          simp [eraseKey, hk]
        rw [e1]
        by_cases hkk : k' = k
        · simp [lookupKey, hkk]
        · simp [lookupKey, hkk, ih]

theorem purge_removes_moodle (file : ConfigFileState) :
    lookupKey (load_config (purge_and_save file)) moodleSessionKey = none := by
  cases h : containsKey (load_config file) moodleSessionKey with
  | true =>
      have e : purge_and_save file = save_config (eraseKey (load_config file) moodleSessionKey) := by
        simp [purge_and_save, h]
      rw [e]
      exact lookupKey_eraseKey_self _ _
  | false =>
      have e : purge_and_save file = file := by
        simp [purge_and_save, h]
      rw [e]
      unfold containsKey at h
      cases hl : lookupKey (load_config file) moodleSessionKey with
      | none => rfl
      | some v => rw [hl] at h; cases h

theorem purge_keeps_other (file : ConfigFileState) {k : Str} (hk : k ≠ moodleSessionKey) :
    lookupKey (load_config (purge_and_save file)) k = lookupKey (load_config file) k := by
  cases h : containsKey (load_config file) moodleSessionKey with
  | true =>
      have e : purge_and_save file = save_config (eraseKey (load_config file) moodleSessionKey) := by
        simp [purge_and_save, h]
      rw [e]
      exact lookupKey_eraseKey_ne _ hk
  | false =>
      have e : purge_and_save file = file := by
        simp [purge_and_save, h]
      rw [e]

/- Helper lemmas about lists of optional activity names. -/

theorem filterMap_take_of_isSome {α : Type} :
    ∀ (n : Nat) (l : List (Option α)), (∀ a ∈ l, a.isSome) →
      (l.take n).filterMap id = (l.filterMap id).take n := by
  intro n l
  induction l generalizing n with
  | nil => intro _; simp
  | cons x xs ih =>
      intro h
      obtain ⟨a, rfl⟩ := Option.isSome_iff_exists.mp (h x (List.mem_cons_self x xs))
      cases n with
      | zero => simp
      | succ m =>
          simp only [List.take_succ_cons, List.filterMap_cons, id_eq, List.take]
          rw [ih m (fun b hb => h b (List.mem_cons_of_mem _ hb))]

theorem length_filterMap_of_isSome {α : Type} :
    ∀ (l : List (Option α)), (∀ a ∈ l, a.isSome) → (l.filterMap id).length = l.length := by
  intro l
  induction l with
  | nil => intro _; rfl
  | cons x xs ih =>
      intro h
      obtain ⟨a, rfl⟩ := Option.isSome_iff_exists.mp (h x (List.mem_cons_self x xs))
      simp only [List.filterMap_cons, id_eq, List.length_cons]
      rw [ih (fun b hb => h b (List.mem_cons_of_mem _ hb))]

/-- Claim C3: for every credential/config file state that is absent or contains
invalid structured content (unparseable JSON), load_config returns an empty
mapping and no exception escapes to the caller (the function is total and both
failure states yield the empty mapping). -/
theorem load_config_absent_or_corrupt (st : ConfigFileState)
    (h : st = ConfigFileState.absent ∨ st = ConfigFileState.present none) :
    load_config st = [] := by
  rcases h with h | h <;> subst h <;> rfl

theorem load_config_absent_or_corrupt_witness :
    load_config ConfigFileState.absent = [] ∧
      load_config (ConfigFileState.present none) = [] :=
  ⟨load_config_absent_or_corrupt ConfigFileState.absent (Or.inl rfl),
   load_config_absent_or_corrupt (ConfigFileState.present none) (Or.inr rfl)⟩

/-- Claim C7: for every credential file whose mapping contains a non-empty
session token under the key "MoodleSession", get_cookie returns that stored
token, leaves the file untouched and never shows the interactive prompt,
whatever the operator would have replied. -/
theorem get_cookie_returns_stored (file : ConfigFileState) (promptInput v : Str)
    (hv : lookupKey (load_config file) moodleSessionKey = some v) (hne : v ≠ []) :
    get_cookie file promptInput = ⟨CookieResult.fromStore v, file, false⟩ := by
  have hs : storedCookie (load_config file) = some v := by
    unfold storedCookie
    rw [hv]
    exact if_neg hne
  simp only [get_cookie, hs]

theorem get_cookie_returns_stored_witness :
    get_cookie fileWithToken [] = ⟨CookieResult.fromStore storedTokenVal, fileWithToken, false⟩ :=
  get_cookie_returns_stored fileWithToken [] storedTokenVal (by decide) (by decide)

/-- Claim C10: if the prompt is reached (no non-empty stored token) and the
operator supplies an empty or whitespace-only value, get_cookie exits with
code 1 after prompting, without writing anything: the config.json file is left
exactly as it was. -/
theorem get_cookie_empty_prompt_exits (file : ConfigFileState) (promptInput : Str)
    (hstore : storedCookie (load_config file) = none)
    (hempty : trimS promptInput = []) :
    get_cookie file promptInput = ⟨CookieResult.exitEmpty 1, file, true⟩ := by
  simp only [get_cookie, hstore, hempty, if_pos]

theorem get_cookie_empty_prompt_exits_witness :
    get_cookie ConfigFileState.absent ("   ".data) =
      ⟨CookieResult.exitEmpty 1, ConfigFileState.absent, true⟩ :=
  get_cookie_empty_prompt_exits ConfigFileState.absent ("   ".data) (by decide) (by decide)

/-- Claim C9: the credential purge removes only the "MoodleSession" key: for
every config.json file state, every other key reads the same from the mapping
written back (or left in place) by purge_and_save/save_config as it did
before, and "MoodleSession" itself is gone afterwards. -/
theorem purge_frame (file : ConfigFileState) (k : Str) (hk : k ≠ moodleSessionKey) :
    lookupKey (load_config (purge_and_save file)) k = lookupKey (load_config file) k ∧
    lookupKey (load_config (purge_and_save file)) moodleSessionKey = none :=
  ⟨purge_keeps_other file hk, purge_removes_moodle file⟩

theorem purge_frame_witness :
    lookupKey (load_config (purge_and_save (save_config configTwoKeys))) otherKey =
      lookupKey (load_config (save_config configTwoKeys)) otherKey ∧
    lookupKey (load_config (purge_and_save (save_config configTwoKeys))) moodleSessionKey =
      none :=
  purge_frame (save_config configTwoKeys) otherKey (by decide)

/-- Claim C6: for every calendar payload that fails to parse,
parse_calendar_events returns none rather than propagating the exception, the
debug file at the fixed location debug_calendar.ics afterwards contains the
exact original payload, and main then exits with code 1. -/
theorem parse_calendar_failure_saves_debug (ics_data : Str) (debug0 : Option Str) :
    (parse_calendar_events none ics_data debug0).calendar = none ∧
    (parse_calendar_events none ics_data debug0).debugFile = some ics_data ∧
    main_exit_after_parse (parse_calendar_events none ics_data debug0).calendar = some 1 :=
  ⟨rfl, rfl, rfl⟩

/-- Claim C1, counterexample to the claim as stated: a fetch response whose
final URL contains the login marker but whose status is 401 is handled by the
generic request-error branch (raise_for_status raises before the login check),
so no AuthFailure is signalled and the stored MoodleSession token is NOT
removed. -/
theorem scrape_page_login_401_counterexample :
    (scrape_page (some respLogin401) fileWithToken).result ≠ ScrapeResult.authFailureExit 1 ∧
    (scrape_page (some respLogin401) fileWithToken).result = ScrapeResult.requestErrorExit 1 ∧
    lookupKey (load_config (scrape_page (some respLogin401) fileWithToken).file)
      moodleSessionKey = some storedTokenVal := by
  decide

/-- Claim C1, amended: for every fetch response whose status passes
raise_for_status (outside 400-599) and whose final URL contains a login-page
marker, scrape_page signals AuthFailure (prints the session-expired error and
exits with code 1) and afterwards the config.json mapping no longer contains
the MoodleSession token. -/
theorem scrape_page_login_redirect_purges (resp : FetchResponse) (file : ConfigFileState)
    (hst : ¬(400 ≤ resp.status ∧ resp.status < 600))
    (hlog : containsLogin resp.finalUrl = true) :
    (scrape_page (some resp) file).result = ScrapeResult.authFailureExit 1 ∧
    lookupKey (load_config (scrape_page (some resp) file).file) moodleSessionKey = none ∧
    sessionExpiredMsg ∈ (scrape_page (some resp) file).msgs := by
  have e : scrape_page (some resp) file =
      ⟨ScrapeResult.authFailureExit 1, purge_and_save file,
        [sessionExpiredMsg, freshCookieMsg] ++
          (if containsKey (load_config file) moodleSessionKey then
            [configSavedMsg, removedCookieMsg] else [])⟩ := by
    simp only [scrape_page]
    rw [if_neg hst, if_pos hlog]
  rw [e]
  exact ⟨rfl, purge_removes_moodle file, List.mem_cons_self _ _⟩

theorem scrape_page_login_redirect_purges_witness :
    (scrape_page (some respLogin200) fileWithToken).result = ScrapeResult.authFailureExit 1 ∧
    lookupKey (load_config (scrape_page (some respLogin200) fileWithToken).file)
      moodleSessionKey = none ∧
    sessionExpiredMsg ∈ (scrape_page (some respLogin200) fileWithToken).msgs :=
  scrape_page_login_redirect_purges respLogin200 fileWithToken (by decide) (by decide)

/-- Claim C2, counterexample to the claim as stated: a 401 response makes
scrape_page take the generic request-error branch (HTTPError is caught by the
RequestException handler), not the AuthFailure branch, and the stored
MoodleSession credential is NOT dropped. -/
theorem scrape_page_401_counterexample :
    (scrape_page (some resp401NoLogin) fileWithToken).result ≠ ScrapeResult.authFailureExit 1 ∧
    (scrape_page (some resp401NoLogin) fileWithToken).result = ScrapeResult.requestErrorExit 1 ∧
    lookupKey (load_config (scrape_page (some resp401NoLogin) fileWithToken).file)
      moodleSessionKey = some storedTokenVal := by
  decide

/-- Claim C2, amended: for every fetch response with HTTP status 401,
scrape_page exits with code 1 through the generic request-error handler (the
same classification as other HTTP and network errors) and the stored
MoodleSession credential is not dropped: the config file is unchanged. -/
theorem scrape_page_401_generic_error (resp : FetchResponse) (file : ConfigFileState)
    (h401 : resp.status = 401) :
    scrape_page (some resp) file = ⟨ScrapeResult.requestErrorExit 1, file, [fetchErrorMsg]⟩ := by
  have hst : 400 ≤ resp.status ∧ resp.status < 600 := by omega
  simp only [scrape_page]
  rw [if_pos hst]

theorem scrape_page_401_generic_error_witness :
    scrape_page (some resp401NoLogin) fileWithToken =
      ⟨ScrapeResult.requestErrorExit 1, fileWithToken, [fetchErrorMsg]⟩ :=
  scrape_page_401_generic_error resp401NoLogin fileWithToken (by decide)

/-- Claim C4: display_events presents every list of calendar events as a
permutation sorted ascending by start time with a missing start treated as the
minimum possible time, so every event lacking a start time comes before every
event whose start time is later than that minimum; in particular the start
times [2024-11-20T09:00, 2024-11-18T10:00, null] are presented in the order
[null, 2024-11-18T10:00, 2024-11-20T09:00]. -/
theorem display_events_sorted (events : List CalEvent) :
    (displayOrder events).Perm events ∧
    List.Sorted evLe (displayOrder events) ∧
    (∀ (i j : Fin (displayOrder events).length) (t : Nat),
        ((displayOrder events).get i).start = none →
        ((displayOrder events).get j).start = some t →
        datetimeMin < t → (i : Nat) < (j : Nat)) ∧
    displayOrder exampleEvents = [evNoStart, evNov18, evNov20] := by
  refine ⟨List.perm_insertionSort evLe events, List.sorted_insertionSort evLe events,
    ?_, by decide⟩
  intro i j t hi hj ht
  rcases Nat.lt_trichotomy (i : Nat) (j : Nat) with h | h | h
  · exact h
  · exfalso
    have hij : i = j := Fin.ext h
    rw [hij, hj] at hi
    cases hi
  · exfalso
    have hrel : evLe ((displayOrder events).get j) ((displayOrder events).get i) :=
      List.Sorted.rel_get_of_lt (List.sorted_insertionSort evLe events) h
    have hle : t ≤ datetimeMin := by
      have hi' := hi
      have hj' := hj
      simp only [List.get_eq_getElem] at hi' hj'
      simpa [evLe, sortKey, hi', hj'] using hrel
    exact absurd ht (Nat.not_lt.mpr hle)

theorem display_events_sorted_witness :
    ((displayOrder exampleEvents).get ⟨0, by decide⟩).start = none ∧ (0 : Nat) < 1 :=
  ⟨by decide,
   (display_events_sorted exampleEvents).2.2.1 ⟨0, by decide⟩ ⟨1, by decide⟩
     202411181000 (by decide) (by decide) (by decide)⟩

/-- Claim C5: for every list of activity entries that all carry an instance
name, the extractor enumerates exactly the first 10 activity names and, when
there are more than 10 entries, reports the count of the omitted ones
(length - 10); for 10 or fewer entries all names are enumerated and no
omission count is printed. -/
theorem parse_and_display_activity_cap (acts : List (Option Str))
    (hnamed : ∀ a ∈ acts, a.isSome) :
    (10 < acts.length →
        enumerated_activities acts = (acts.filterMap id).take 10 ∧
        (enumerated_activities acts).length = 10 ∧
        omitted_count acts = some (acts.length - 10)) ∧
    (acts.length ≤ 10 →
        enumerated_activities acts = acts.filterMap id ∧
        omitted_count acts = none) := by
  constructor
  · intro hgt
    have hcomm : enumerated_activities acts = (acts.filterMap id).take 10 :=
      filterMap_take_of_isSome 10 acts hnamed
    refine ⟨hcomm, ?_, ?_⟩
    · rw [hcomm, List.length_take, length_filterMap_of_isSome acts hnamed]
      omega
    · unfold omitted_count
      rw [if_pos hgt]
  · intro hle
    constructor
    · unfold enumerated_activities
      rw [List.take_of_length_le hle]
    · unfold omitted_count
      rw [if_neg (by omega)]

theorem parse_and_display_activity_cap_witness :
    (enumerated_activities acts12).length = 10 ∧ omitted_count acts12 = some 2 := by
  have h := (parse_and_display_activity_cap acts12 (by decide)).1 (by decide)
  exact ⟨h.2.1, h.2.2.trans (by decide)⟩

/-- Claim C8: load_calendar_url returns the (stripped) URL exactly when the
file exists and its whitespace-stripped content is non-empty and starts with
http:// or https://; in every other content state it returns none with
error/remediation lines printed, and main then exits with code 1. -/
theorem load_calendar_url_spec (st : UrlFileState) :
    (∀ content, st = UrlFileState.present content → trimS content ≠ [] →
        (isPrefixOfS httpScheme (trimS content) || isPrefixOfS httpsScheme (trimS content))
          = true →
        load_calendar_url st = (some (trimS content), [])) ∧
    ((load_calendar_url st).1.isSome = true →
      ∃ content, st = UrlFileState.present content ∧ trimS content ≠ [] ∧
        (isPrefixOfS httpScheme (trimS content) || isPrefixOfS httpsScheme (trimS content))
          = true) ∧
    ((load_calendar_url st).1 = none →
        (load_calendar_url st).2 ≠ [] ∧
        main_exit_after_url (load_calendar_url st).1 = some 1) := by
  cases st with
  | absent =>
      refine ⟨?_, ?_, ?_⟩
      · intro c hc
        cases hc
      · intro hs
        exact absurd hs (by decide)
      · intro _
        exact ⟨by decide, rfl⟩
  | present content =>
      by_cases hemp : trimS content = []
      · have e : load_calendar_url (UrlFileState.present content) =
            (none, [urlFileEmptyMsg]) := by
          simp only [load_calendar_url]
          rw [if_pos hemp]
        refine ⟨?_, ?_, ?_⟩
        · intro c hc hne _
          cases hc
          exact absurd hemp hne
        · intro hs
          rw [e] at hs
          exact absurd hs (by decide)
        · intro _
          rw [e]
          exact ⟨by decide, rfl⟩
      · by_cases hpre :
            (isPrefixOfS httpScheme (trimS content) || isPrefixOfS httpsScheme (trimS content))
              = true
        · have e : load_calendar_url (UrlFileState.present content) =
              (some (trimS content), []) := by
            simp only [load_calendar_url]
            rw [if_neg hemp, if_neg (by rw [hpre]; decide)]
          refine ⟨?_, ?_, ?_⟩
          · intro c hc _ _
            cases hc
            exact e
          · intro _
            exact ⟨content, rfl, hemp, hpre⟩
          · intro hn
            rw [e] at hn
            exact Option.noConfusion hn
        · have hx : (isPrefixOfS httpScheme (trimS content) ||
              isPrefixOfS httpsScheme (trimS content)) = false :=
            Bool.eq_false_iff.mpr hpre
          have hpre' : (!(isPrefixOfS httpScheme (trimS content) ||
              isPrefixOfS httpsScheme (trimS content))) = true := by
            rw [hx]
            rfl
          have e : load_calendar_url (UrlFileState.present content) =
              (none, [urlInvalidFormatMsg (trimS content), urlSchemeHintMsg]) := by
            simp only [load_calendar_url]
            rw [if_neg hemp, if_pos hpre']
          refine ⟨?_, ?_, ?_⟩
          · intro c hc _ hp
            cases hc
            exact absurd hp hpre
          · intro hs
            rw [e] at hs
            exact Bool.noConfusion hs
          · intro _
            rw [e]
            exact ⟨List.cons_ne_nil _ _, rfl⟩

theorem load_calendar_url_spec_witness :
    load_calendar_url (UrlFileState.present goodUrlContent) =
      (some (trimS goodUrlContent), []) :=
  (load_calendar_url_spec (UrlFileState.present goodUrlContent)).1
    goodUrlContent rfl (by decide) (by decide)

end MycoPlanner
